import Mathlib

/-!
Verification of the helgoboss-midi reassembly core: the Parameter-Number
scanner (`parameter_number_message_scanner.rs`), the Wide-Value CC scanner
(`midi_14_bit_control_change_message_parser.rs`) and the Parameter-Number
encoder (`parameter_number_message.rs`).

Machine integers are modelled as `Nat`; the wrapper types `U7`, `U14`,
`Channel` and `ControllerNumber` of the crate are validated newtypes over
integers, so their range invariants appear here as hypotheses where a
theorem needs them.  Rust `Option` maps to `Option`, the possibly-panicking
`.unwrap()` call in the Wide-Value scanner is modelled by an
`Option`-valued step function where `none` marks the panic.
-/

/-- Modelled from the spec: `build_14_bit_value_from_two_7_bit_values` of the
crate (the function itself lives outside the shown sources); the spec states
the combination as `value_msb << 7 | value_lsb`. -/
def build_14_bit_value_from_two_7_bit_values (value_msb value_lsb : Nat) : Nat :=
  (value_msb <<< 7) ||| value_lsb

/-- Modelled from the spec: `extract_high_7_bit_value_from_14_bit_value`;
the spec decomposes a 14-bit value as `high7 = value >> 7`. -/
def extract_high_7_bit_value_from_14_bit_value (value : Nat) : Nat :=
  value >>> 7

/-- Modelled from the spec: `extract_low_7_bit_value_from_14_bit_value`;
the spec decomposes a 14-bit value as `low7 = value & 0x7F`. -/
def extract_low_7_bit_value_from_14_bit_value (value : Nat) : Nat :=
  value &&& 127

/-- Modelled from the spec: controller-number constant of the crate's
`controller_numbers` module; its value 101 is pinned by the source's own
tests (`parameter_number_messages_14_bit`). -/
def REGISTERED_PARAMETER_NUMBER_MSB : Nat := 101

/-- Modelled from the spec: controller-number constant, value 100 pinned by
the source's tests. -/
def REGISTERED_PARAMETER_NUMBER_LSB : Nat := 100

/-- Modelled from the spec: controller-number constant, value 99 pinned by
the source's tests (`parameter_number_messages_7_bit`). -/
def NON_REGISTERED_PARAMETER_NUMBER_MSB : Nat := 99

/-- Modelled from the spec: controller-number constant, value 98 pinned by
the source's tests. -/
def NON_REGISTERED_PARAMETER_NUMBER_LSB : Nat := 98

/-- Modelled from the spec: controller-number constant, value 6 (data entry
MSB) pinned by the source's tests. -/
def DATA_ENTRY_MSB : Nat := 6

/-- Modelled from the spec: controller-number constant, value 38 (data entry
LSB) pinned by the source's tests. -/
def DATA_ENTRY_MSB_LSB : Nat := 38

/-- Modelled from the spec: the generic short-message input.  The spec's
data model distinguishes the control-change variant `(channel,
controller_number, value)` from every other variant, which is inert; other
variants either carry a channel (note-on, ...) or do not (system
messages). -/
inductive ShortMessage where
  | controlChange (channel : Nat) (controller_number : Nat) (control_value : Nat)
  | otherWithChannel (channel : Nat)
  | otherWithoutChannel
deriving DecidableEq

/-- Modelled from the spec: the `channel()` accessor of the short-message
trait; `none` for messages lacking a channel. -/
def ShortMessage.channel? : ShortMessage → Option Nat
  | .controlChange channel _ _ => some channel
  | .otherWithChannel channel => some channel
  | .otherWithoutChannel => none

/-- The `ParameterNumberMessage` struct of `parameter_number_message.rs`. -/
structure ParameterNumberMessage where
  channel : Nat
  number : Nat
  value : Nat
  is_registered : Bool
  is_14_bit : Bool
deriving DecidableEq

/-- Private constructor `ParameterNumberMessage::seven_bit`. -/
def ParameterNumberMessage.seven_bit (channel number value : Nat)
    (is_registered : Bool) : ParameterNumberMessage :=
  { channel, number, value, is_registered, is_14_bit := false }

/-- Private constructor `ParameterNumberMessage::fourteen_bit`. -/
def ParameterNumberMessage.fourteen_bit (channel number value : Nat)
    (is_registered : Bool) : ParameterNumberMessage :=
  { channel, number, value, is_registered, is_14_bit := true }

/-- `ParameterNumberMessage::non_registered_7_bit`. -/
def ParameterNumberMessage.non_registered_7_bit (channel number value : Nat) :
    ParameterNumberMessage :=
  ParameterNumberMessage.seven_bit channel number value false

/-- `ParameterNumberMessage::non_registered_14_bit`. -/
def ParameterNumberMessage.non_registered_14_bit (channel number value : Nat) :
    ParameterNumberMessage :=
  ParameterNumberMessage.fourteen_bit channel number value false

/-- `ParameterNumberMessage::registered_7_bit`. -/
def ParameterNumberMessage.registered_7_bit (channel number value : Nat) :
    ParameterNumberMessage :=
  ParameterNumberMessage.seven_bit channel number value true

/-- `ParameterNumberMessage::registered_14_bit`. -/
def ParameterNumberMessage.registered_14_bit (channel number value : Nat) :
    ParameterNumberMessage :=
  ParameterNumberMessage.fourteen_bit channel number value true

/-- `ParameterNumberMessage::to_short_messages`.  The source fills a 4-slot
array in order: number MSB, number LSB, then (only when `is_14_bit`) the
value LSB, then the value MSB; with a 7-bit value the value MSB lands in the
3rd slot and the 4th slot stays `None`.  The `as u8` cast the source applies
to a 7-bit value is `% 256`. -/
def ParameterNumberMessage.to_short_messages (m : ParameterNumberMessage) :
    List (Option ShortMessage) :=
  if m.is_14_bit then
    [some (ShortMessage.controlChange m.channel
        (if m.is_registered then REGISTERED_PARAMETER_NUMBER_MSB
         else NON_REGISTERED_PARAMETER_NUMBER_MSB)
        (extract_high_7_bit_value_from_14_bit_value m.number)),
     some (ShortMessage.controlChange m.channel
        (if m.is_registered then REGISTERED_PARAMETER_NUMBER_LSB
         else NON_REGISTERED_PARAMETER_NUMBER_LSB)
        (extract_low_7_bit_value_from_14_bit_value m.number)),
     some (ShortMessage.controlChange m.channel DATA_ENTRY_MSB_LSB
        (extract_low_7_bit_value_from_14_bit_value m.value)),
     some (ShortMessage.controlChange m.channel DATA_ENTRY_MSB
        (extract_high_7_bit_value_from_14_bit_value m.value))]
  else
    [some (ShortMessage.controlChange m.channel
        (if m.is_registered then REGISTERED_PARAMETER_NUMBER_MSB
         else NON_REGISTERED_PARAMETER_NUMBER_MSB)
        (extract_high_7_bit_value_from_14_bit_value m.number)),
     some (ShortMessage.controlChange m.channel
        (if m.is_registered then REGISTERED_PARAMETER_NUMBER_LSB
         else NON_REGISTERED_PARAMETER_NUMBER_LSB)
        (extract_low_7_bit_value_from_14_bit_value m.number)),
     some (ShortMessage.controlChange m.channel DATA_ENTRY_MSB (m.value % 256)),
     none]

/-- The per-channel state of `parameter_number_message_scanner.rs`
(`ScannerForOneChannel`). -/
structure ScannerForOneChannel where
  number_msb : Option Nat
  number_lsb : Option Nat
  is_registered : Bool
  value_lsb : Option Nat
deriving DecidableEq

/-- The `Default` instance of `ScannerForOneChannel`: all options `None`,
the flag `false`. -/
def ScannerForOneChannel.new : ScannerForOneChannel :=
  { number_msb := none, number_lsb := none, is_registered := false, value_lsb := none }

/-- `ScannerForOneChannel::reset_value`. -/
def ScannerForOneChannel.reset_value (s : ScannerForOneChannel) : ScannerForOneChannel :=
  { s with value_lsb := none }

/-- `ScannerForOneChannel::reset`. -/
def ScannerForOneChannel.reset (s : ScannerForOneChannel) : ScannerForOneChannel :=
  { s with number_msb := none, number_lsb := none, is_registered := false, value_lsb := none }

/-- `ScannerForOneChannel::process_number_lsb`: clears the value LSB, stores
the number LSB, records registeredness; no output. -/
def ScannerForOneChannel.process_number_lsb (s : ScannerForOneChannel)
    (number_lsb : Nat) (is_registered : Bool) :
    ScannerForOneChannel × Option ParameterNumberMessage :=
  ({ s.reset_value with number_lsb := some number_lsb, is_registered }, none)

/-- `ScannerForOneChannel::process_number_msb`: clears the value LSB, stores
the number MSB, records registeredness; no output. -/
def ScannerForOneChannel.process_number_msb (s : ScannerForOneChannel)
    (number_msb : Nat) (is_registered : Bool) :
    ScannerForOneChannel × Option ParameterNumberMessage :=
  ({ s.reset_value with number_msb := some number_msb, is_registered }, none)

/-- `ScannerForOneChannel::process_value_lsb`: stores the value LSB; no
output. -/
def ScannerForOneChannel.process_value_lsb (s : ScannerForOneChannel)
    (value_lsb : Nat) : ScannerForOneChannel × Option ParameterNumberMessage :=
  ({ s with value_lsb := some value_lsb }, none)

/-- `ScannerForOneChannel::process_value_msb`: the completing step.  The two
`?` early returns leave the state unchanged; on completion the state is also
left unchanged (the source mutates nothing here). -/
def ScannerForOneChannel.process_value_msb (s : ScannerForOneChannel)
    (channel value_msb : Nat) : ScannerForOneChannel × Option ParameterNumberMessage :=
  match s.number_lsb with
  | none => (s, none)
  | some number_lsb =>
    match s.number_msb with
    | none => (s, none)
    | some number_msb =>
      (s, some
        (if s.is_registered then
          match s.value_lsb with
          | some value_lsb =>
            ParameterNumberMessage.registered_14_bit channel
              (build_14_bit_value_from_two_7_bit_values number_msb number_lsb)
              (build_14_bit_value_from_two_7_bit_values value_msb value_lsb)
          | none =>
            ParameterNumberMessage.registered_7_bit channel
              (build_14_bit_value_from_two_7_bit_values number_msb number_lsb) value_msb
        else
          match s.value_lsb with
          | some value_lsb =>
            ParameterNumberMessage.non_registered_14_bit channel
              (build_14_bit_value_from_two_7_bit_values number_msb number_lsb)
              (build_14_bit_value_from_two_7_bit_values value_msb value_lsb)
          | none =>
            ParameterNumberMessage.non_registered_7_bit channel
              (build_14_bit_value_from_two_7_bit_values number_msb number_lsb) value_msb))

/-- `ScannerForOneChannel::feed`: dispatch on the controller number of a
control-change message (98, 99, 100, 101, 38, 6 as in the source's match);
anything else, and any non-control-change message, is a no-op. -/
def ScannerForOneChannel.feed (s : ScannerForOneChannel) (msg : ShortMessage) :
    ScannerForOneChannel × Option ParameterNumberMessage :=
  match msg with
  | .controlChange channel controller_number control_value =>
    if controller_number = 98 then s.process_number_lsb control_value false
    else if controller_number = 99 then s.process_number_msb control_value false
    else if controller_number = 100 then s.process_number_lsb control_value true
    else if controller_number = 101 then s.process_number_msb control_value true
    else if controller_number = 38 then s.process_value_lsb control_value
    else if controller_number = 6 then s.process_value_msb channel control_value
    else (s, none)
  | _ => (s, none)

/-- The top-level `ParameterNumberMessageScanner`: the source's 16-slot
array of per-channel scanners, represented as a function out of the channel
index (the `Channel` type keeps indices below 16). -/
structure ParameterNumberMessageScanner where
  scanner_by_channel : Nat → ScannerForOneChannel

/-- `ParameterNumberMessageScanner::new` (all per-channel states default). -/
def ParameterNumberMessageScanner.new : ParameterNumberMessageScanner :=
  ⟨fun _ => ScannerForOneChannel.new⟩

/-- `ParameterNumberMessageScanner::reset`. -/
def ParameterNumberMessageScanner.reset (s : ParameterNumberMessageScanner) :
    ParameterNumberMessageScanner :=
  ⟨fun c => (s.scanner_by_channel c).reset⟩

/-- `ParameterNumberMessageScanner::feed`: extract the channel (`?` returns
`None` without touching state) and dispatch to that channel's scanner. -/
def ParameterNumberMessageScanner.feed (s : ParameterNumberMessageScanner)
    (msg : ShortMessage) :
    ParameterNumberMessageScanner × Option ParameterNumberMessage :=
  match msg.channel? with
  | none => (s, none)
  | some ch =>
    (⟨Function.update s.scanner_by_channel ch
        ((s.scanner_by_channel ch).feed msg).1⟩,
     ((s.scanner_by_channel ch).feed msg).2)

/-- Feeding a list of messages through the scanner, collecting each feed's
result in order. -/
def pnRun (s : ParameterNumberMessageScanner) :
    List ShortMessage → ParameterNumberMessageScanner × List (Option ParameterNumberMessage)
  | [] => (s, [])
  | msg :: rest =>
    ((pnRun (s.feed msg).1 rest).1, (s.feed msg).2 :: (pnRun (s.feed msg).1 rest).2)

/-- The completed messages a run emits, in order. -/
def pnCompleted (s : ParameterNumberMessageScanner) (ms : List ShortMessage) :
    List ParameterNumberMessage :=
  (pnRun s ms).2.filterMap id

/-- The subsequence of a message list lying on one channel. -/
def msgsOn (c : Nat) (ms : List ShortMessage) : List ShortMessage :=
  ms.filter (fun m => decide (m.channel? = some c))

/-- The `Midi14BitControlChangeMessage` produced by the Wide-Value CC
scanner.  Modelled from the spec: the struct lives outside the shown
sources; its fields are `channel`, `msb_controller_number` and the 14-bit
`value`, with the LSB controller number derived. -/
structure Midi14BitControlChangeMessage where
  channel : Nat
  msb_controller_number : Nat
  value : Nat
deriving DecidableEq

/-- Modelled from the spec: the derived LSB controller number
`msb_controller_number + 32`. -/
def Midi14BitControlChangeMessage.get_lsb_controller_number
    (m : Midi14BitControlChangeMessage) : Nat :=
  m.msb_controller_number + 32

/-- Modelled from the spec: `ControllerNumber::get_corresponding_14_bit_lsb`;
controller `n` with `0 ≤ n ≤ 31` pairs with `n + 32`, any other controller
has no corresponding LSB controller. -/
def get_corresponding_14_bit_lsb (n : Nat) : Option Nat :=
  if n ≤ 31 then some (n + 32) else none

/-- The per-channel state of `midi_14_bit_control_change_message_parser.rs`
(`ParserForOneChannel`). -/
structure ParserForOneChannel where
  msb_controller_number : Option Nat
  value_msb : Option Nat
deriving DecidableEq

/-- `ParserForOneChannel::new`. -/
def ParserForOneChannel.new : ParserForOneChannel :=
  { msb_controller_number := none, value_msb := none }

/-- `ParserForOneChannel::reset`. -/
def ParserForOneChannel.reset (_s : ParserForOneChannel) : ParserForOneChannel :=
  ParserForOneChannel.new

/-- `ParserForOneChannel::process_value_msb`: store both halves of the
pending MSB; no output. -/
def ParserForOneChannel.process_value_msb (_s : ParserForOneChannel)
    (msb_controller_number value_msb : Nat) :
    ParserForOneChannel × Option Midi14BitControlChangeMessage :=
  ({ msb_controller_number := some msb_controller_number, value_msb := some value_msb }, none)

/-- `ParserForOneChannel::process_value_lsb`.  The source calls
`get_corresponding_14_bit_lsb().unwrap()` on the stored MSB controller; the
overall `none` result models that unwrap panicking.  The `?` early returns
and the mismatch return leave the state unchanged, and so does the
completing return: the source clears nothing here. -/
def ParserForOneChannel.process_value_lsb (s : ParserForOneChannel)
    (channel lsb_controller_number value_lsb : Nat) :
    Option (ParserForOneChannel × Option Midi14BitControlChangeMessage) :=
  match s.msb_controller_number with
  | none => some (s, none)
  | some msb_controller_number =>
    match s.value_msb with
    | none => some (s, none)
    | some value_msb =>
      match get_corresponding_14_bit_lsb msb_controller_number with
      | none => none
      | some expected_lsb =>
        if lsb_controller_number = expected_lsb then
          some (s, some
            { channel, msb_controller_number,
              value := build_14_bit_value_from_two_7_bit_values value_msb value_lsb })
        else
          some (s, none)

/-- `ParserForOneChannel::feed`: controller numbers 0-31 are MSB halves,
32-63 LSB halves, anything else (and non-control-change messages) a no-op.
The overall `none` result marks the panic path inside the LSB branch. -/
def ParserForOneChannel.feed (s : ParserForOneChannel) (msg : ShortMessage) :
    Option (ParserForOneChannel × Option Midi14BitControlChangeMessage) :=
  match msg with
  | .controlChange channel controller_number control_value =>
    if controller_number ≤ 31 then
      some (s.process_value_msb controller_number control_value)
    else if controller_number ≤ 63 then
      s.process_value_lsb channel controller_number control_value
    else
      some (s, none)
  | _ => some (s, none)

/-- Totalisation of `ParserForOneChannel.feed`: the panic path is defaulted
to a no-op.  By the reachability invariant proved below the default is never
taken on any state the scanner actually reaches. -/
def ParserForOneChannel.feedTotal (s : ParserForOneChannel) (msg : ShortMessage) :
    ParserForOneChannel × Option Midi14BitControlChangeMessage :=
  (s.feed msg).getD (s, none)

/-- The top-level `Midi14BitControlChangeMessageParser`: the source's array
of `Channel::COUNT` (16) per-channel states, represented as a function out
of the channel index. -/
structure Midi14BitControlChangeMessageParser where
  parser_by_channel : Nat → ParserForOneChannel

/-- `Midi14BitControlChangeMessageParser::new`. -/
def Midi14BitControlChangeMessageParser.new : Midi14BitControlChangeMessageParser :=
  ⟨fun _ => ParserForOneChannel.new⟩

/-- `Midi14BitControlChangeMessageParser::reset`. -/
def Midi14BitControlChangeMessageParser.reset (p : Midi14BitControlChangeMessageParser) :
    Midi14BitControlChangeMessageParser :=
  ⟨fun c => (p.parser_by_channel c).reset⟩

/-- `Midi14BitControlChangeMessageParser::feed`: extract the channel (`?`
returns `None` without touching state) and dispatch to that channel's
parser. -/
def Midi14BitControlChangeMessageParser.feed (p : Midi14BitControlChangeMessageParser)
    (msg : ShortMessage) :
    Midi14BitControlChangeMessageParser × Option Midi14BitControlChangeMessage :=
  match msg.channel? with
  | none => (p, none)
  | some ch =>
    (⟨Function.update p.parser_by_channel ch
        ((p.parser_by_channel ch).feedTotal msg).1⟩,
     ((p.parser_by_channel ch).feedTotal msg).2)

/-- Feeding a list of messages through the wide-value scanner, collecting
each feed's result in order. -/
def wideRun (p : Midi14BitControlChangeMessageParser) :
    List ShortMessage →
      Midi14BitControlChangeMessageParser × List (Option Midi14BitControlChangeMessage)
  | [] => (p, [])
  | msg :: rest =>
    ((wideRun (p.feed msg).1 rest).1, (p.feed msg).2 :: (wideRun (p.feed msg).1 rest).2)

/-- The completed messages a wide-value run emits, in order. -/
def wideCompleted (p : Midi14BitControlChangeMessageParser) (ms : List ShortMessage) :
    List Midi14BitControlChangeMessage :=
  (wideRun p ms).2.filterMap id

/-- Combining two 7-bit halves is multiply-and-add when the low half is in
range. -/
theorem build_14_bit_eq_mul_add (a b : Nat) (hb : b < 128) :
    build_14_bit_value_from_two_7_bit_values a b = a * 128 + b := by
  have h := Nat.mul_add_lt_is_or (i := 7) (b := b) (by norm_num [hb]) a
  simp only [build_14_bit_value_from_two_7_bit_values, Nat.shiftLeft_eq]
  rw [Nat.mul_comm a (2 ^ 7), ← h]

/-- The high extractor is division by 128. -/
theorem extract_high_eq_div (v : Nat) :
    extract_high_7_bit_value_from_14_bit_value v = v / 128 := by
  simp [extract_high_7_bit_value_from_14_bit_value, Nat.shiftRight_eq_div_pow]

/-- The low extractor is remainder mod 128. -/
theorem extract_low_eq_mod (v : Nat) :
    extract_low_7_bit_value_from_14_bit_value v = v % 128 := by
  have h := Nat.and_pow_two_sub_one_eq_mod v 7
  norm_num at h
  simpa [extract_low_7_bit_value_from_14_bit_value] using h

/-- Splitting a value into its 7-bit halves and recombining restores it. -/
theorem build_extract (v : Nat) :
    build_14_bit_value_from_two_7_bit_values
      (extract_high_7_bit_value_from_14_bit_value v)
      (extract_low_7_bit_value_from_14_bit_value v) = v := by
  rw [extract_high_eq_div, extract_low_eq_mod,
    build_14_bit_eq_mul_add _ _ (Nat.mod_lt _ (by norm_num))]
  omega

/-- Feeding the matching LSB while an MSB (with its value) is pending
completes: the message combines the two value halves and the state is
returned unchanged. -/
theorem wide_lsb_matched (st : ParserForOneChannel) (n vm ch vl : Nat)
    (h1 : st.msb_controller_number = some n) (h2 : n ≤ 31)
    (h3 : st.value_msb = some vm) :
    ParserForOneChannel.feed st (.controlChange ch (n + 32) vl)
      = some (st, some { channel := ch, msb_controller_number := n,
                         value := build_14_bit_value_from_two_7_bit_values vm vl }) := by
  have hlt : ¬ (n + 32 ≤ 31) := by omega
  have hle : n + 32 ≤ 63 := by omega
  simp [ParserForOneChannel.feed, ParserForOneChannel.process_value_lsb,
    get_corresponding_14_bit_lsb, h1, h2, h3, hlt, hle]

/-- Feeding a mismatched LSB-half controller while an MSB (with its value)
is pending produces no output and returns the state unchanged. -/
theorem wide_lsb_mismatch (st : ParserForOneChannel) (n vm ch cn v : Nat)
    (h1 : st.msb_controller_number = some n) (h2 : n ≤ 31)
    (h3 : st.value_msb = some vm) (h4 : 32 ≤ cn) (h5 : cn ≤ 63)
    (h6 : cn ≠ n + 32) :
    ParserForOneChannel.feed st (.controlChange ch cn v) = some (st, none) := by
  have hlt : ¬ (cn ≤ 31) := by omega
  simp [ParserForOneChannel.feed, ParserForOneChannel.process_value_lsb,
    get_corresponding_14_bit_lsb, h1, h2, h3, hlt, h5, h6]

/-- C2: feeding a fresh Parameter-Number scanner (101,3), (100,36), (38,24),
(6,117) on channel 0 yields `None`, `None`, `None`, then the registered
14-bit message number 420 / value 15000; feeding a fresh scanner (99,3),
(98,37), (6,126) on channel 2 yields `None`, `None`, then the non-registered
7-bit message number 421 / value 126. -/
theorem c2_concrete_sequences :
    (pnRun ParameterNumberMessageScanner.new
      [.controlChange 0 101 3, .controlChange 0 100 36,
       .controlChange 0 38 24, .controlChange 0 6 117]).2
    = [none, none, none,
       some { channel := 0, number := 420, value := 15000,
              is_registered := true, is_14_bit := true }]
    ∧ (pnRun ParameterNumberMessageScanner.new
      [.controlChange 2 99 3, .controlChange 2 98 37, .controlChange 2 6 126]).2
    = [none, none,
       some { channel := 2, number := 421, value := 126,
              is_registered := false, is_14_bit := false }] := by
  exact ⟨by decide, by decide⟩

/-- C3 is false on the code: a number arriving on controllers 99 and 98
completes with `is_registered = false`, not `true` — the sequence (99,3),
(98,37), (6,126) on channel 2 completes and its `is_registered` field is
`false`. -/
theorem c3_counterexample :
    (pnRun ParameterNumberMessageScanner.new
      [.controlChange 2 99 3, .controlChange 2 98 37, .controlChange 2 6 126]).2
    = [none, none,
       some { channel := 2, number := 421, value := 126,
              is_registered := false, is_14_bit := false }]
    ∧ (({ channel := 2, number := 421, value := 126, is_registered := false,
          is_14_bit := false : ParameterNumberMessage }).is_registered = true) = False := by
  exact ⟨by decide, eq_false (by decide)⟩

/-- C3 (amended): controller 99 carries the non-registered (NRPN) number MSB
and 98 the NRPN number LSB — a number arriving on 99/98 completes with
`is_registered = false` — while 101/100 carry the registered (RPN) halves —
a number arriving on 101/100 completes with `is_registered = true`. -/
theorem c3_amended (ch n m v : Nat) :
    (pnRun ParameterNumberMessageScanner.new
      [.controlChange ch 99 n, .controlChange ch 98 m, .controlChange ch 6 v]).2
    = [none, none,
       some { channel := ch, number := build_14_bit_value_from_two_7_bit_values n m,
              value := v, is_registered := false, is_14_bit := false }]
    ∧ (pnRun ParameterNumberMessageScanner.new
      [.controlChange ch 101 n, .controlChange ch 100 m, .controlChange ch 6 v]).2
    = [none, none,
       some { channel := ch, number := build_14_bit_value_from_two_7_bit_values n m,
              value := v, is_registered := true, is_14_bit := false }] := by
  constructor <;>
    simp [pnRun, ParameterNumberMessageScanner.feed, ParameterNumberMessageScanner.new,
      ShortMessage.channel?, ScannerForOneChannel.feed, ScannerForOneChannel.new,
      ScannerForOneChannel.process_number_msb, ScannerForOneChannel.process_number_lsb,
      ScannerForOneChannel.process_value_msb, ScannerForOneChannel.reset_value,
      ParameterNumberMessage.non_registered_7_bit, ParameterNumberMessage.registered_7_bit,
      ParameterNumberMessage.seven_bit, Function.update_same]

/-- C4 is false on the code: after the matching LSB (channel 5, controller
34, value 33) completes the pending MSB (controller 2, value 8), the
channel's pending state is *not* cleared — both fields still hold their
values, so "both pending fields are empty" fails. -/
theorem c4_counterexample :
    (ParserForOneChannel.feedTotal
      (ParserForOneChannel.feedTotal ParserForOneChannel.new
        (.controlChange 5 2 8)).1 (.controlChange 5 34 33)).2
      = some { channel := 5, msb_controller_number := 2, value := 1057 }
    ∧ (ParserForOneChannel.feedTotal
      (ParserForOneChannel.feedTotal ParserForOneChannel.new
        (.controlChange 5 2 8)).1 (.controlChange 5 34 33)).1
      = { msb_controller_number := some 2, value_msb := some 8 }
    ∧ ((ParserForOneChannel.feedTotal
        (ParserForOneChannel.feedTotal ParserForOneChannel.new
          (.controlChange 5 2 8)).1 (.controlChange 5 34 33)).1.msb_controller_number = none
       ∧ (ParserForOneChannel.feedTotal
        (ParserForOneChannel.feedTotal ParserForOneChannel.new
          (.controlChange 5 2 8)).1 (.controlChange 5 34 33)).1.value_msb = none) = False := by
  exact ⟨by decide, by decide, eq_false (by decide)⟩

/-- C4 (amended): whenever a feed of an LSB-half control-change message
matches the pending MSB (controller number `pending + 32` on the same
channel), the feed emits the completed message, but it leaves the channel's
pending state unchanged — both `pending_msb_controller` and
`pending_value_msb` keep their values after the call (nothing is cleared),
so the pending MSB stays usable. -/
theorem c4_amended (st : ParserForOneChannel) (n vm ch vl : Nat)
    (h1 : st.msb_controller_number = some n) (h2 : n ≤ 31)
    (h3 : st.value_msb = some vm) :
    ParserForOneChannel.feed st (.controlChange ch (n + 32) vl)
      = some (st, some { channel := ch, msb_controller_number := n,
                         value := build_14_bit_value_from_two_7_bit_values vm vl }) :=
  wide_lsb_matched st n vm ch vl h1 h2 h3

/-- Witness for the amended C4 at the source's own test input. -/
theorem c4_amended_witness :
    (ParserForOneChannel.mk (some 2) (some 8)).msb_controller_number = some 2
    ∧ (2 : Nat) ≤ 31
    ∧ (ParserForOneChannel.mk (some 2) (some 8)).value_msb = some 8
    ∧ ParserForOneChannel.feed (ParserForOneChannel.mk (some 2) (some 8))
        (.controlChange 5 (2 + 32) 33)
      = some (ParserForOneChannel.mk (some 2) (some 8),
          some { channel := 5, msb_controller_number := 2,
                 value := build_14_bit_value_from_two_7_bit_values 8 33 }) :=
  ⟨rfl, by decide, rfl,
   c4_amended (ParserForOneChannel.mk (some 2) (some 8)) 2 8 5 33 rfl (by decide) rfl⟩

/-- C5 is false on the code: for the 7-bit message (channel 2, number 421,
value 126) the 3rd slot of the encoder output is the value-MSB message on
controller 6, not an empty slot (the empty slot is the 4th). -/
theorem c5_counterexample :
    ((ParameterNumberMessage.non_registered_7_bit 2 421 126).to_short_messages)[2]?
      = some (some (.controlChange 2 6 126))
    ∧ (((ParameterNumberMessage.non_registered_7_bit 2 421 126).to_short_messages)[2]?
        = some none) = False := by
  exact ⟨by decide, eq_false (by decide)⟩

/-- C5 (amended): for every `ParameterNumberMessage` with `is_14_bit =
false`, `to_short_messages` returns a 4-slot sequence whose 4th slot is
empty (`none`), whose first three slots are populated, and in which no
value-LSB (controller 38) message appears — the 7-bit encoding uses only 3
of the 4 slots. -/
theorem c5_amended (m : ParameterNumberMessage) (h : m.is_14_bit = false) :
    m.to_short_messages.length = 4
    ∧ m.to_short_messages[3]? = some none
    ∧ (m.to_short_messages.take 3).all Option.isSome = true
    ∧ ∀ ch cn v, some (ShortMessage.controlChange ch cn v) ∈ m.to_short_messages →
        cn ≠ 38 := by
  refine ⟨?_, ?_, ?_, ?_⟩ <;>
    simp only [ParameterNumberMessage.to_short_messages, h, if_false, Bool.false_eq_true]
  · rfl
  · rfl
  · rfl
  · intro ch cn v hmem
    cases hreg : m.is_registered <;>
      simp [hreg, REGISTERED_PARAMETER_NUMBER_MSB, NON_REGISTERED_PARAMETER_NUMBER_MSB,
        REGISTERED_PARAMETER_NUMBER_LSB, NON_REGISTERED_PARAMETER_NUMBER_LSB,
        DATA_ENTRY_MSB] at hmem <;>
      rcases hmem with ⟨-, h1, -⟩ | ⟨-, h1, -⟩ | ⟨-, h1, -⟩ <;> omega

/-- Witness for the amended C5 at the source's own 7-bit test message. -/
theorem c5_amended_witness :
    (ParameterNumberMessage.non_registered_7_bit 2 421 126).is_14_bit = false
    ∧ ((ParameterNumberMessage.non_registered_7_bit 2 421 126).to_short_messages.length = 4
       ∧ (ParameterNumberMessage.non_registered_7_bit 2 421 126).to_short_messages[3]?
           = some none
       ∧ ((ParameterNumberMessage.non_registered_7_bit 2 421 126).to_short_messages.take 3).all
           Option.isSome = true
       ∧ ∀ ch cn v, some (ShortMessage.controlChange ch cn v) ∈
           (ParameterNumberMessage.non_registered_7_bit 2 421 126).to_short_messages →
             cn ≠ 38) :=
  ⟨rfl, c5_amended (ParameterNumberMessage.non_registered_7_bit 2 421 126) rfl⟩

/-- C6: with an MSB pending (controller `n`, value `vm`), an LSB-half
control-change whose controller lies in [32,63] but differs from `n + 32`
yields no output and leaves the pending state (both fields) unchanged, and
a subsequent correctly-paired LSB still completes using the original
pending MSB and its value. -/
theorem c6_mismatched_lsb_preserves_pending (st : ParserForOneChannel)
    (n vm ch cn v w : Nat)
    (h1 : st.msb_controller_number = some n) (h2 : n ≤ 31)
    (h3 : st.value_msb = some vm) (h4 : 32 ≤ cn) (h5 : cn ≤ 63)
    (h6 : cn ≠ n + 32) :
    ParserForOneChannel.feed st (.controlChange ch cn v) = some (st, none)
    ∧ ParserForOneChannel.feed st (.controlChange ch (n + 32) w)
      = some (st, some { channel := ch, msb_controller_number := n,
                         value := build_14_bit_value_from_two_7_bit_values vm w }) :=
  ⟨wide_lsb_mismatch st n vm ch cn v h1 h2 h3 h4 h5 h6,
   wide_lsb_matched st n vm ch w h1 h2 h3⟩

/-- Witness for C6 at the source's own test input: pending MSB controller 2
with value 8, mismatched LSB controller 35, then the matching controller
34. -/
theorem c6_witness :
    (ParserForOneChannel.mk (some 2) (some 8)).msb_controller_number = some 2
    ∧ (2 : Nat) ≤ 31
    ∧ (ParserForOneChannel.mk (some 2) (some 8)).value_msb = some 8
    ∧ (32 : Nat) ≤ 35 ∧ (35 : Nat) ≤ 63 ∧ (35 : Nat) ≠ 2 + 32
    ∧ (ParserForOneChannel.feed (ParserForOneChannel.mk (some 2) (some 8))
        (.controlChange 5 35 9) = some (ParserForOneChannel.mk (some 2) (some 8), none)
       ∧ ParserForOneChannel.feed (ParserForOneChannel.mk (some 2) (some 8))
          (.controlChange 5 (2 + 32) 33)
         = some (ParserForOneChannel.mk (some 2) (some 8),
             some { channel := 5, msb_controller_number := 2,
                    value := build_14_bit_value_from_two_7_bit_values 8 33 })) :=
  ⟨rfl, by decide, rfl, by decide, by decide, by decide,
   c6_mismatched_lsb_preserves_pending (ParserForOneChannel.mk (some 2) (some 8))
     2 8 5 35 9 33 rfl (by decide) rfl (by decide) (by decide) (by decide)⟩

/-- C7: feeding a fresh wide-value scanner (channel 5, controller 2, value
8) yields `None`, then (channel 5, controller 34, value 33) yields the
completed message with channel 5, MSB controller 2, derived LSB controller
34 and value 1057; in general a completing feed emits
`value_msb * 128 + value_lsb`. -/
theorem c7_wide_value_concrete_and_general :
    (wideRun Midi14BitControlChangeMessageParser.new
      [.controlChange 5 2 8, .controlChange 5 34 33]).2
    = [none, some { channel := 5, msb_controller_number := 2, value := 1057 }]
    ∧ ({ channel := 5, msb_controller_number := 2,
         value := 1057 : Midi14BitControlChangeMessage }).get_lsb_controller_number = 34
    ∧ ∀ (st : ParserForOneChannel) (n vm ch vl : Nat),
        st.msb_controller_number = some n → n ≤ 31 → st.value_msb = some vm →
        vl < 128 →
        ParserForOneChannel.feed st (.controlChange ch (n + 32) vl)
          = some (st, some { channel := ch, msb_controller_number := n,
                             value := vm * 128 + vl }) := by
  refine ⟨by decide, by decide, ?_⟩
  intro st n vm ch vl h1 h2 h3 h4
  rw [wide_lsb_matched st n vm ch vl h1 h2 h3, build_14_bit_eq_mul_add vm vl h4]

/-- Witness for C7's general clause at controller 2, value halves 8 and
33. -/
theorem c7_witness :
    (ParserForOneChannel.mk (some 2) (some 8)).msb_controller_number = some 2
    ∧ (2 : Nat) ≤ 31
    ∧ (ParserForOneChannel.mk (some 2) (some 8)).value_msb = some 8
    ∧ (33 : Nat) < 128
    ∧ ParserForOneChannel.feed (ParserForOneChannel.mk (some 2) (some 8))
        (.controlChange 5 (2 + 32) 33)
      = some (ParserForOneChannel.mk (some 2) (some 8),
          some { channel := 5, msb_controller_number := 2, value := 8 * 128 + 33 }) :=
  ⟨rfl, by decide, rfl, by decide,
   c7_wide_value_concrete_and_general.2.2 (ParserForOneChannel.mk (some 2) (some 8))
     2 8 5 33 rfl (by decide) rfl (by decide)⟩

/-- C10: a completing feed of a controller-6 message leaves the channel's
entire state unchanged (all four fields), so a second controller-6 message
on the same channel immediately completes again, reusing the stored number
and — when a value LSB was stored before the first completion — the stale
`value_lsb`, emitting a 14-bit message. -/
theorem c10_completion_preserves_state (st : ScannerForOneChannel)
    (ch v w nm nl : Nat)
    (h1 : st.number_msb = some nm) (h2 : st.number_lsb = some nl) :
    (ScannerForOneChannel.feed st (.controlChange ch 6 v)).1 = st
    ∧ (ScannerForOneChannel.feed st (.controlChange ch 6 v)).2.isSome = true
    ∧ (∀ vl, st.value_lsb = some vl →
        (ScannerForOneChannel.feed
          (ScannerForOneChannel.feed st (.controlChange ch 6 v)).1
          (.controlChange ch 6 w)).2
        = some { channel := ch,
                 number := build_14_bit_value_from_two_7_bit_values nm nl,
                 value := build_14_bit_value_from_two_7_bit_values w vl,
                 is_registered := st.is_registered, is_14_bit := true })
    ∧ (st.value_lsb = none →
        (ScannerForOneChannel.feed
          (ScannerForOneChannel.feed st (.controlChange ch 6 v)).1
          (.controlChange ch 6 w)).2
        = some { channel := ch,
                 number := build_14_bit_value_from_two_7_bit_values nm nl,
                 value := w,
                 is_registered := st.is_registered, is_14_bit := false }) := by
  refine ⟨?_, ?_, ?_, ?_⟩
  · cases hreg : st.is_registered <;> cases hvl : st.value_lsb <;>
      simp [ScannerForOneChannel.feed, ScannerForOneChannel.process_value_msb, h1, h2, hvl]
  · cases hreg : st.is_registered <;> cases hvl : st.value_lsb <;>
      simp [ScannerForOneChannel.feed, ScannerForOneChannel.process_value_msb, h1, h2, hvl]
  · intro vl hvl
    cases hreg : st.is_registered <;>
      simp [ScannerForOneChannel.feed, ScannerForOneChannel.process_value_msb, h1, h2,
        hvl, hreg, ParameterNumberMessage.registered_14_bit,
        ParameterNumberMessage.non_registered_14_bit, ParameterNumberMessage.fourteen_bit]
  · intro hvl
    cases hreg : st.is_registered <;>
      simp [ScannerForOneChannel.feed, ScannerForOneChannel.process_value_msb, h1, h2,
        hvl, hreg, ParameterNumberMessage.registered_7_bit,
        ParameterNumberMessage.non_registered_7_bit, ParameterNumberMessage.seven_bit]

/-- Witness for C10: state holding number 3/36 (registered) and a stale
value LSB 24; two controller-6 feeds with values 117 then 50. -/
theorem c10_witness :
    (ScannerForOneChannel.mk (some 3) (some 36) true (some 24)).number_msb = some 3
    ∧ (ScannerForOneChannel.mk (some 3) (some 36) true (some 24)).number_lsb = some 36
    ∧ (ScannerForOneChannel.feed (ScannerForOneChannel.mk (some 3) (some 36) true (some 24))
        (.controlChange 0 6 117)).1
      = ScannerForOneChannel.mk (some 3) (some 36) true (some 24)
    ∧ (ScannerForOneChannel.feed (ScannerForOneChannel.mk (some 3) (some 36) true (some 24))
        (.controlChange 0 6 117)).2.isSome = true
    ∧ (ScannerForOneChannel.feed
        (ScannerForOneChannel.feed (ScannerForOneChannel.mk (some 3) (some 36) true (some 24))
          (.controlChange 0 6 117)).1
        (.controlChange 0 6 50)).2
      = some { channel := 0,
               number := build_14_bit_value_from_two_7_bit_values 3 36,
               value := build_14_bit_value_from_two_7_bit_values 50 24,
               is_registered := true, is_14_bit := true } :=
  ⟨rfl, rfl,
   (c10_completion_preserves_state (ScannerForOneChannel.mk (some 3) (some 36) true (some 24))
     0 117 50 3 36 rfl rfl).1,
   (c10_completion_preserves_state (ScannerForOneChannel.mk (some 3) (some 36) true (some 24))
     0 117 50 3 36 rfl rfl).2.1,
   (c10_completion_preserves_state (ScannerForOneChannel.mk (some 3) (some 36) true (some 24))
     0 117 50 3 36 rfl rfl).2.2.1 24 rfl⟩

/-- C1: for every `ParameterNumberMessage` satisfying the construction
invariant (channel below 16, number and value in the 14-bit domain, a 7-bit
value below 128), feeding the messages of `to_short_messages`, in order and
skipping empty slots, into a fresh Parameter-Number scanner yields `None`
for every message except the last, and the last feed yields the original
message, equal in every field. -/
theorem c1_encoder_scanner_roundtrip (m : ParameterNumberMessage)
    (hch : m.channel < 16) (hn : m.number < 16384) (hv : m.value < 16384)
    (h7 : m.is_14_bit = false → m.value < 128) :
    (pnRun ParameterNumberMessageScanner.new (m.to_short_messages.filterMap id)).2
      = List.replicate ((m.to_short_messages.filterMap id).length - 1) none
        ++ [some m] := by
  obtain ⟨ch, n, v, r, b⟩ := m
  cases b
  · have hv' : v < 128 := h7 rfl
    have hmod : v % 256 = v := Nat.mod_eq_of_lt (by omega)
    cases r <;>
      simp [ParameterNumberMessage.to_short_messages, pnRun,
        ParameterNumberMessageScanner.feed, ParameterNumberMessageScanner.new,
        ShortMessage.channel?, ScannerForOneChannel.feed, ScannerForOneChannel.new,
        ScannerForOneChannel.process_number_msb, ScannerForOneChannel.process_number_lsb,
        ScannerForOneChannel.process_value_lsb, ScannerForOneChannel.process_value_msb,
        ScannerForOneChannel.reset_value, Function.update_same,
        REGISTERED_PARAMETER_NUMBER_MSB, REGISTERED_PARAMETER_NUMBER_LSB,
        NON_REGISTERED_PARAMETER_NUMBER_MSB, NON_REGISTERED_PARAMETER_NUMBER_LSB,
        DATA_ENTRY_MSB, DATA_ENTRY_MSB_LSB, hmod,
        ParameterNumberMessage.registered_7_bit, ParameterNumberMessage.non_registered_7_bit,
        ParameterNumberMessage.seven_bit, build_extract]
  · cases r <;>
      simp [ParameterNumberMessage.to_short_messages, pnRun,
        ParameterNumberMessageScanner.feed, ParameterNumberMessageScanner.new,
        ShortMessage.channel?, ScannerForOneChannel.feed, ScannerForOneChannel.new,
        ScannerForOneChannel.process_number_msb, ScannerForOneChannel.process_number_lsb,
        ScannerForOneChannel.process_value_lsb, ScannerForOneChannel.process_value_msb,
        ScannerForOneChannel.reset_value, Function.update_same,
        REGISTERED_PARAMETER_NUMBER_MSB, REGISTERED_PARAMETER_NUMBER_LSB,
        NON_REGISTERED_PARAMETER_NUMBER_MSB, NON_REGISTERED_PARAMETER_NUMBER_LSB,
        DATA_ENTRY_MSB, DATA_ENTRY_MSB_LSB,
        ParameterNumberMessage.registered_14_bit, ParameterNumberMessage.non_registered_14_bit,
        ParameterNumberMessage.fourteen_bit, build_extract]

/-- Witness for C1 at the source's registered 14-bit test message. -/
theorem c1_witness :
    (ParameterNumberMessage.registered_14_bit 0 420 15000).channel < 16
    ∧ (ParameterNumberMessage.registered_14_bit 0 420 15000).number < 16384
    ∧ (ParameterNumberMessage.registered_14_bit 0 420 15000).value < 16384
    ∧ ((ParameterNumberMessage.registered_14_bit 0 420 15000).is_14_bit = false →
        (ParameterNumberMessage.registered_14_bit 0 420 15000).value < 128)
    ∧ (pnRun ParameterNumberMessageScanner.new
        ((ParameterNumberMessage.registered_14_bit 0 420 15000).to_short_messages.filterMap id)).2
      = List.replicate
          (((ParameterNumberMessage.registered_14_bit 0 420 15000).to_short_messages.filterMap
            id).length - 1) none
        ++ [some (ParameterNumberMessage.registered_14_bit 0 420 15000)] :=
  ⟨by decide, by decide, by decide, by decide,
   c1_encoder_scanner_roundtrip (ParameterNumberMessage.registered_14_bit 0 420 15000)
     (by decide) (by decide) (by decide) (by decide)⟩

/-- The reachability invariant of a wide-value per-channel state: any
stored MSB controller number lies in [0,31] (it was stored by the 0-31
branch of `feed`). -/
def wideInv (st : ParserForOneChannel) : Prop :=
  ∀ n, st.msb_controller_number = some n → n ≤ 31

/-- The fresh per-channel state satisfies the invariant. -/
theorem wideInv_new : wideInv ParserForOneChannel.new := by
  intro n h
  simp [ParserForOneChannel.new] at h

/-- A feed whose controller number is not an MSB half returns the state
unchanged (also through the totalised panic default). -/
theorem wide_notMsb_state_unchanged (st : ParserForOneChannel) (ch cn v : Nat)
    (h31 : ¬ cn ≤ 31) :
    (ParserForOneChannel.feedTotal st (.controlChange ch cn v)).1 = st := by
  by_cases h63 : cn ≤ 63
  · cases hm : st.msb_controller_number with
    | none =>
      simp [ParserForOneChannel.feedTotal, ParserForOneChannel.feed,
        ParserForOneChannel.process_value_lsb, h31, h63, hm]
    | some n =>
      cases hvm : st.value_msb with
      | none =>
        simp [ParserForOneChannel.feedTotal, ParserForOneChannel.feed,
          ParserForOneChannel.process_value_lsb, h31, h63, hm, hvm]
      | some vm =>
        by_cases hn : n ≤ 31
        · by_cases hcn : cn = n + 32 <;>
            simp [ParserForOneChannel.feedTotal, ParserForOneChannel.feed,
              ParserForOneChannel.process_value_lsb, get_corresponding_14_bit_lsb,
              h31, h63, hm, hvm, hn, hcn]
        · simp [ParserForOneChannel.feedTotal, ParserForOneChannel.feed,
            ParserForOneChannel.process_value_lsb, get_corresponding_14_bit_lsb,
            h31, h63, hm, hvm, hn]
  · simp [ParserForOneChannel.feedTotal, ParserForOneChannel.feed, h31, h63]

/-- One totalised feed preserves the invariant. -/
theorem wideInv_feedTotal (st : ParserForOneChannel) (msg : ShortMessage)
    (h : wideInv st) : wideInv (ParserForOneChannel.feedTotal st msg).1 := by
  cases msg with
  | controlChange ch cn v =>
    by_cases h31 : cn ≤ 31
    · intro n hn
      simp [ParserForOneChannel.feedTotal, ParserForOneChannel.feed, h31,
        ParserForOneChannel.process_value_msb] at hn
      omega
    · rw [wide_notMsb_state_unchanged st ch cn v h31]
      exact h
  | otherWithChannel ch =>
    simpa [ParserForOneChannel.feedTotal, ParserForOneChannel.feed] using h
  | otherWithoutChannel =>
    simpa [ParserForOneChannel.feedTotal, ParserForOneChannel.feed] using h

/-- Under the invariant, a feed never takes the panic path: the unwrap of
`get_corresponding_14_bit_lsb` always succeeds. -/
theorem wideInv_no_panic (st : ParserForOneChannel) (msg : ShortMessage)
    (h : wideInv st) : (ParserForOneChannel.feed st msg).isSome = true := by
  cases msg with
  | controlChange ch cn v =>
    by_cases h31 : cn ≤ 31
    · simp [ParserForOneChannel.feed, h31]
    · by_cases h63 : cn ≤ 63
      · cases hm : st.msb_controller_number with
        | none =>
          simp [ParserForOneChannel.feed, ParserForOneChannel.process_value_lsb, h31, h63, hm]
        | some n =>
          cases hvm : st.value_msb with
          | none =>
            simp [ParserForOneChannel.feed, ParserForOneChannel.process_value_lsb,
              h31, h63, hm, hvm]
          | some vm =>
            simp [ParserForOneChannel.feed, ParserForOneChannel.process_value_lsb,
              get_corresponding_14_bit_lsb, h31, h63, hm, hvm, h n hm]
            split_ifs <;> simp
      · simp [ParserForOneChannel.feed, h31, h63]
  | otherWithChannel ch => simp [ParserForOneChannel.feed]
  | otherWithoutChannel => simp [ParserForOneChannel.feed]

/-- Running any message list from the fresh top-level wide-value scanner
keeps every channel's state inside the invariant. -/
theorem wideRun_inv (ms : List ShortMessage) :
    ∀ (p : Midi14BitControlChangeMessageParser),
      (∀ c, wideInv (p.parser_by_channel c)) →
      ∀ c, wideInv ((wideRun p ms).1.parser_by_channel c) := by
  induction ms with
  | nil => intro p hp c; simpa [wideRun] using hp c
  | cons m ms ih =>
    intro p hp c
    simp only [wideRun]
    apply ih
    intro d
    cases hch : m.channel? with
    | none =>
      have hfeed : p.feed m = (p, none) := by
        cases m <;> simp_all [Midi14BitControlChangeMessageParser.feed, ShortMessage.channel?]
      rw [hfeed]
      exact hp d
    | some ch =>
      have hfeed : (p.feed m).1
          = ⟨Function.update p.parser_by_channel ch
              ((p.parser_by_channel ch).feedTotal m).1⟩ := by
        simp [Midi14BitControlChangeMessageParser.feed, hch]
      rw [hfeed]
      by_cases hd : d = ch
      · subst hd
        simpa [Function.update_same] using wideInv_feedTotal _ m (hp d)
      · simpa [Function.update_noteq hd] using hp d

/-- C9: the feed operation of both scanners is total in this embedding (the
Parameter-Number scanner's step is a total function by construction — its
source uses only early returns, no unwrap), and in the Wide-Value CC
scanner the unwrap of `get_corresponding_14_bit_lsb` is unreachable as a
failure: for every state reachable from the fresh scanner by feeding any
message list, and every further input message of any variant, the
possibly-panicking per-channel feed returns a value. -/
theorem c9_feed_never_panics (ms : List ShortMessage) (c : Nat) (msg : ShortMessage) :
    (ParserForOneChannel.feed
      ((wideRun Midi14BitControlChangeMessageParser.new ms).1.parser_by_channel c)
      msg).isSome = true :=
  wideInv_no_panic _ msg
    (wideRun_inv ms Midi14BitControlChangeMessageParser.new (fun _ => wideInv_new) c)

/-- Projection of a literal Parameter-Number scanner. -/
@[simp] theorem pn_scanner_by_channel_mk (f : Nat → ScannerForOneChannel) :
    (⟨f⟩ : ParameterNumberMessageScanner).scanner_by_channel = f := rfl

/-- Projection of a literal wide-value scanner. -/
@[simp] theorem wide_parser_by_channel_mk (f : Nat → ParserForOneChannel) :
    (⟨f⟩ : Midi14BitControlChangeMessageParser).parser_by_channel = f := rfl

/-- A channel-less message is a no-op for the Parameter-Number scanner. -/
theorem pnFeed_channel_none (s : ParameterNumberMessageScanner) (m : ShortMessage)
    (h : m.channel? = none) : s.feed m = (s, none) := by
  simp [ParameterNumberMessageScanner.feed, h]

/-- A message on channel `ch` updates only that channel's state, with the
output of the per-channel feed. -/
theorem pnFeed_channel_some (s : ParameterNumberMessageScanner) (m : ShortMessage) (ch : Nat)
    (h : m.channel? = some ch) :
    s.feed m
      = (⟨Function.update s.scanner_by_channel ch ((s.scanner_by_channel ch).feed m).1⟩,
         ((s.scanner_by_channel ch).feed m).2) := by
  simp [ParameterNumberMessageScanner.feed, h]

/-- Unfolding one step of `pnCompleted`. -/
theorem pnCompleted_cons (s : ParameterNumberMessageScanner) (m : ShortMessage)
    (ms : List ShortMessage) :
    pnCompleted s (m :: ms) = (s.feed m).2.toList ++ pnCompleted (s.feed m).1 ms := by
  cases h : (s.feed m).2 <;> simp [pnCompleted, pnRun, h]

/-- A per-channel feed only ever emits a message carrying the channel of
the message that was fed. -/
theorem pn_chanFeed_out (st : ScannerForOneChannel) (m : ShortMessage)
    (o : ParameterNumberMessage) (h : (ScannerForOneChannel.feed st m).2 = some o) :
    m.channel? = some o.channel := by
  cases m with
  | controlChange ch cn v =>
    simp only [ScannerForOneChannel.feed] at h
    split_ifs at h
    · simp [ScannerForOneChannel.process_number_lsb] at h
    · simp [ScannerForOneChannel.process_number_msb] at h
    · simp [ScannerForOneChannel.process_number_lsb] at h
    · simp [ScannerForOneChannel.process_number_msb] at h
    · simp [ScannerForOneChannel.process_value_lsb] at h
    · simp only [ScannerForOneChannel.process_value_msb] at h
      cases hnl : st.number_lsb with
      | none => simp [hnl] at h
      | some nl =>
        cases hnm : st.number_msb with
        | none => simp [hnl, hnm] at h
        | some nm =>
          simp only [hnl, hnm, Option.some.injEq] at h
          cases hreg : st.is_registered <;> cases hvl : st.value_lsb <;>
            simp only [hreg, hvl, Bool.false_eq_true, if_false, if_true] at h <;>
            rw [← h] <;>
            simp [ShortMessage.channel?, ParameterNumberMessage.registered_14_bit,
              ParameterNumberMessage.registered_7_bit,
              ParameterNumberMessage.non_registered_14_bit,
              ParameterNumberMessage.non_registered_7_bit,
              ParameterNumberMessage.fourteen_bit, ParameterNumberMessage.seven_bit]
  | otherWithChannel ch => simp [ScannerForOneChannel.feed] at h
  | otherWithoutChannel => simp [ScannerForOneChannel.feed] at h

/-- Channel projection for the Parameter-Number scanner: running only the
channel-`c` subsequence from any scanner agreeing with the original on
channel `c` produces exactly the channel-`c` completed messages of the full
run, in order. -/
theorem pn_isolation_aux (ms : List ShortMessage) :
    ∀ (s t : ParameterNumberMessageScanner) (c : Nat),
      s.scanner_by_channel c = t.scanner_by_channel c →
      pnCompleted t (msgsOn c ms)
        = (pnCompleted s ms).filter (fun o => decide (o.channel = c)) := by
  induction ms with
  | nil => intro s t c h; simp [msgsOn, pnCompleted, pnRun]
  | cons m ms ih =>
    intro s t c h
    cases hch : m.channel? with
    | none =>
      have hfil : msgsOn c (m :: ms) = msgsOn c ms := by simp [msgsOn, hch]
      rw [hfil, pnCompleted_cons, pnFeed_channel_none s m hch]
      simpa using ih s t c h
    | some d =>
      by_cases hdc : d = c
      · subst hdc
        have hfil : msgsOn d (m :: ms) = m :: msgsOn d ms := by simp [msgsOn, hch]
        rw [hfil, pnCompleted_cons, pnCompleted_cons,
          pnFeed_channel_some s m d hch, pnFeed_channel_some t m d hch, ← h]
        rw [List.filter_append]
        have hout : ((s.scanner_by_channel d).feed m).2.toList.filter
            (fun o => decide (o.channel = d))
            = ((s.scanner_by_channel d).feed m).2.toList := by
          cases ho : ((s.scanner_by_channel d).feed m).2 with
          | none => simp
          | some o =>
            have := pn_chanFeed_out (s.scanner_by_channel d) m o ho
            rw [hch] at this
            simp at this
            simp [ho, this]
        rw [hout]
        congr 1
        exact ih
          ⟨Function.update s.scanner_by_channel d ((s.scanner_by_channel d).feed m).1⟩
          ⟨Function.update t.scanner_by_channel d ((s.scanner_by_channel d).feed m).1⟩
          d (by simp [Function.update_same])
      · have hfil : msgsOn c (m :: ms) = msgsOn c ms := by
          simp [msgsOn, hch, hdc]
        rw [hfil, pnCompleted_cons, pnFeed_channel_some s m d hch, List.filter_append]
        have hout : ((s.scanner_by_channel d).feed m).2.toList.filter
            (fun o => decide (o.channel = c)) = [] := by
          cases ho : ((s.scanner_by_channel d).feed m).2 with
          | none => simp
          | some o =>
            have hoch := pn_chanFeed_out (s.scanner_by_channel d) m o ho
            rw [hch] at hoch
            simp only [Option.some.injEq] at hoch
            subst hoch
            simp [ho, hdc]
        rw [hout]
        have hagree :
            (⟨Function.update s.scanner_by_channel d
                ((s.scanner_by_channel d).feed m).1⟩ :
              ParameterNumberMessageScanner).scanner_by_channel c
              = t.scanner_by_channel c := by
          simpa [Function.update_noteq (fun hc => hdc hc.symm)] using h
        simpa using ih _ t c hagree

/-- A channel-less message is a no-op for the wide-value scanner. -/
theorem wideFeed_channel_none (p : Midi14BitControlChangeMessageParser) (m : ShortMessage)
    (h : m.channel? = none) : p.feed m = (p, none) := by
  simp [Midi14BitControlChangeMessageParser.feed, h]

/-- A message on channel `ch` updates only that channel's state, with the
output of the per-channel totalised feed. -/
theorem wideFeed_channel_some (p : Midi14BitControlChangeMessageParser) (m : ShortMessage)
    (ch : Nat) (h : m.channel? = some ch) :
    p.feed m
      = (⟨Function.update p.parser_by_channel ch
            ((p.parser_by_channel ch).feedTotal m).1⟩,
         ((p.parser_by_channel ch).feedTotal m).2) := by
  simp [Midi14BitControlChangeMessageParser.feed, h]

/-- Unfolding one step of `wideCompleted`. -/
theorem wideCompleted_cons (p : Midi14BitControlChangeMessageParser) (m : ShortMessage)
    (ms : List ShortMessage) :
    wideCompleted p (m :: ms) = (p.feed m).2.toList ++ wideCompleted (p.feed m).1 ms := by
  cases h : (p.feed m).2 <;> simp [wideCompleted, wideRun, h]

/-- A per-channel totalised feed only ever emits a message carrying the
channel of the message that was fed. -/
theorem wide_chanFeedTotal_out (st : ParserForOneChannel) (m : ShortMessage)
    (o : Midi14BitControlChangeMessage)
    (h : (ParserForOneChannel.feedTotal st m).2 = some o) :
    m.channel? = some o.channel := by
  cases m with
  | controlChange ch cn v =>
    simp only [ParserForOneChannel.feedTotal, ParserForOneChannel.feed] at h
    by_cases h31 : cn ≤ 31
    · simp [h31, ParserForOneChannel.process_value_msb] at h
    · by_cases h63 : cn ≤ 63
      · simp only [h31, h63, if_false, if_true] at h
        cases hm : st.msb_controller_number with
        | none => simp [ParserForOneChannel.process_value_lsb, hm] at h
        | some n =>
          cases hvm : st.value_msb with
          | none => simp [ParserForOneChannel.process_value_lsb, hm, hvm] at h
          | some vm =>
            by_cases hn : n ≤ 31
            · by_cases hcn : cn = n + 32
              · simp only [ParserForOneChannel.process_value_lsb,
                  get_corresponding_14_bit_lsb, hm, hvm, hn, hcn, if_true,
                  Option.getD_some, Option.some.injEq] at h
                rw [← h]
                simp [ShortMessage.channel?]
              · simp [ParserForOneChannel.process_value_lsb,
                  get_corresponding_14_bit_lsb, hm, hvm, hn, hcn] at h
            · simp [ParserForOneChannel.process_value_lsb,
                get_corresponding_14_bit_lsb, hm, hvm, hn] at h
      · simp [h31, h63] at h
  | otherWithChannel ch => simp [ParserForOneChannel.feedTotal, ParserForOneChannel.feed] at h
  | otherWithoutChannel => simp [ParserForOneChannel.feedTotal, ParserForOneChannel.feed] at h

/-- Channel projection for the wide-value scanner: running only the
channel-`c` subsequence from any scanner agreeing with the original on
channel `c` produces exactly the channel-`c` completed messages of the full
run, in order. -/
theorem wide_isolation_aux (ms : List ShortMessage) :
    ∀ (p q : Midi14BitControlChangeMessageParser) (c : Nat),
      p.parser_by_channel c = q.parser_by_channel c →
      wideCompleted q (msgsOn c ms)
        = (wideCompleted p ms).filter (fun o => decide (o.channel = c)) := by
  induction ms with
  | nil => intro p q c h; simp [msgsOn, wideCompleted, wideRun]
  | cons m ms ih =>
    intro p q c h
    cases hch : m.channel? with
    | none =>
      have hfil : msgsOn c (m :: ms) = msgsOn c ms := by simp [msgsOn, hch]
      rw [hfil, wideCompleted_cons, wideFeed_channel_none p m hch]
      simpa using ih p q c h
    | some d =>
      by_cases hdc : d = c
      · subst hdc
        have hfil : msgsOn d (m :: ms) = m :: msgsOn d ms := by simp [msgsOn, hch]
        rw [hfil, wideCompleted_cons, wideCompleted_cons,
          wideFeed_channel_some p m d hch, wideFeed_channel_some q m d hch, ← h]
        rw [List.filter_append]
        have hout : ((p.parser_by_channel d).feedTotal m).2.toList.filter
            (fun o => decide (o.channel = d))
            = ((p.parser_by_channel d).feedTotal m).2.toList := by
          cases ho : ((p.parser_by_channel d).feedTotal m).2 with
          | none => simp
          | some o =>
            have hoch := wide_chanFeedTotal_out (p.parser_by_channel d) m o ho
            rw [hch] at hoch
            simp only [Option.some.injEq] at hoch
            subst hoch
            simp [ho]
        rw [hout]
        congr 1
        exact ih
          ⟨Function.update p.parser_by_channel d ((p.parser_by_channel d).feedTotal m).1⟩
          ⟨Function.update q.parser_by_channel d ((p.parser_by_channel d).feedTotal m).1⟩
          d (by simp [Function.update_same])
      · have hfil : msgsOn c (m :: ms) = msgsOn c ms := by
          simp [msgsOn, hch, hdc]
        rw [hfil, wideCompleted_cons, wideFeed_channel_some p m d hch, List.filter_append]
        have hout : ((p.parser_by_channel d).feedTotal m).2.toList.filter
            (fun o => decide (o.channel = c)) = [] := by
          cases ho : ((p.parser_by_channel d).feedTotal m).2 with
          | none => simp
          | some o =>
            have hoch := wide_chanFeedTotal_out (p.parser_by_channel d) m o ho
            rw [hch] at hoch
            simp only [Option.some.injEq] at hoch
            subst hoch
            simp [ho, hdc]
        rw [hout]
        have hagree :
            (⟨Function.update p.parser_by_channel d
                ((p.parser_by_channel d).feedTotal m).1⟩ :
              Midi14BitControlChangeMessageParser).parser_by_channel c
              = q.parser_by_channel c := by
          simpa [Function.update_noteq (fun hc => hdc hc.symm)] using h
        simpa using ih _ q c hagree

/-- A top-level Parameter-Number feed only emits a message carrying the fed
message's channel. -/
theorem pnFeed_out_channel (s : ParameterNumberMessageScanner) (m : ShortMessage)
    (o : ParameterNumberMessage) (h : (s.feed m).2 = some o) :
    m.channel? = some o.channel := by
  cases hch : m.channel? with
  | none => rw [pnFeed_channel_none s m hch] at h; simp at h
  | some d =>
    rw [pnFeed_channel_some s m d hch] at h
    rw [← hch]
    exact pn_chanFeed_out (s.scanner_by_channel d) m o h

/-- A top-level wide-value feed only emits a message carrying the fed
message's channel. -/
theorem wideFeed_out_channel (p : Midi14BitControlChangeMessageParser) (m : ShortMessage)
    (o : Midi14BitControlChangeMessage) (h : (p.feed m).2 = some o) :
    m.channel? = some o.channel := by
  cases hch : m.channel? with
  | none => rw [wideFeed_channel_none p m hch] at h; simp at h
  | some d =>
    rw [wideFeed_channel_some p m d hch] at h
    rw [← hch]
    exact wide_chanFeedTotal_out (p.parser_by_channel d) m o h

/-- Every completed Parameter-Number message of a run stems from some fed
message on its channel. -/
theorem pnCompleted_mem_channel (ms : List ShortMessage) :
    ∀ (s : ParameterNumberMessageScanner) (o : ParameterNumberMessage),
      o ∈ pnCompleted s ms → ∃ m, m ∈ ms ∧ m.channel? = some o.channel := by
  induction ms with
  | nil => intro s o ho; simp [pnCompleted, pnRun] at ho
  | cons m ms ih =>
    intro s o ho
    rw [pnCompleted_cons] at ho
    rcases List.mem_append.mp ho with h1 | h1
    · cases hout : (s.feed m).2 with
      | none => rw [hout] at h1; simp at h1
      | some o' =>
        rw [hout] at h1
        simp only [Option.toList_some, List.mem_singleton] at h1
        subst h1
        exact ⟨m, List.mem_cons_self m ms, pnFeed_out_channel s m o hout⟩
    · obtain ⟨m', hm', hch⟩ := ih _ o h1
      exact ⟨m', List.mem_cons_of_mem m hm', hch⟩

/-- Every completed wide-value message of a run stems from some fed message
on its channel. -/
theorem wideCompleted_mem_channel (ms : List ShortMessage) :
    ∀ (p : Midi14BitControlChangeMessageParser) (o : Midi14BitControlChangeMessage),
      o ∈ wideCompleted p ms → ∃ m, m ∈ ms ∧ m.channel? = some o.channel := by
  induction ms with
  | nil => intro p o ho; simp [wideCompleted, wideRun] at ho
  | cons m ms ih =>
    intro p o ho
    rw [wideCompleted_cons] at ho
    rcases List.mem_append.mp ho with h1 | h1
    · cases hout : (p.feed m).2 with
      | none => rw [hout] at h1; simp at h1
      | some o' =>
        rw [hout] at h1
        simp only [Option.toList_some, List.mem_singleton] at h1
        subst h1
        exact ⟨m, List.mem_cons_self m ms, wideFeed_out_channel p m o hout⟩
    · obtain ⟨m', hm', hch⟩ := ih _ o h1
      exact ⟨m', List.mem_cons_of_mem m hm', hch⟩

/-- C8: for both scanners, feeding a sequence interleaved across two
distinct channels from fresh produces, per channel, exactly the completed
messages of that channel's subsequence fed in isolation, in the same
relative order (the interleaved run's outputs on each channel are its
channel projection), and every completed message lies on one of the two
channels. -/
theorem c8_channel_isolation (c1 c2 : Nat) (ms : List ShortMessage)
    (_hne : c1 ≠ c2)
    (hms : ∀ m ∈ ms, m.channel? = some c1 ∨ m.channel? = some c2) :
    pnCompleted ParameterNumberMessageScanner.new (msgsOn c1 ms)
      = (pnCompleted ParameterNumberMessageScanner.new ms).filter
          (fun o => decide (o.channel = c1))
    ∧ pnCompleted ParameterNumberMessageScanner.new (msgsOn c2 ms)
      = (pnCompleted ParameterNumberMessageScanner.new ms).filter
          (fun o => decide (o.channel = c2))
    ∧ wideCompleted Midi14BitControlChangeMessageParser.new (msgsOn c1 ms)
      = (wideCompleted Midi14BitControlChangeMessageParser.new ms).filter
          (fun o => decide (o.channel = c1))
    ∧ wideCompleted Midi14BitControlChangeMessageParser.new (msgsOn c2 ms)
      = (wideCompleted Midi14BitControlChangeMessageParser.new ms).filter
          (fun o => decide (o.channel = c2))
    ∧ (∀ o ∈ pnCompleted ParameterNumberMessageScanner.new ms,
        o.channel = c1 ∨ o.channel = c2)
    ∧ (∀ o ∈ wideCompleted Midi14BitControlChangeMessageParser.new ms,
        o.channel = c1 ∨ o.channel = c2) := by
  refine ⟨pn_isolation_aux ms _ _ c1 rfl, pn_isolation_aux ms _ _ c2 rfl,
    wide_isolation_aux ms _ _ c1 rfl, wide_isolation_aux ms _ _ c2 rfl, ?_, ?_⟩
  · intro o ho
    obtain ⟨m, hm, hchan⟩ := pnCompleted_mem_channel ms _ o ho
    rcases hms m hm with h | h
    · left
      rw [h] at hchan
      exact (Option.some.injEq _ _ ▸ hchan).symm
    · right
      rw [h] at hchan
      exact (Option.some.injEq _ _ ▸ hchan).symm
  · intro o ho
    obtain ⟨m, hm, hchan⟩ := wideCompleted_mem_channel ms _ o ho
    rcases hms m hm with h | h
    · left
      rw [h] at hchan
      exact (Option.some.injEq _ _ ▸ hchan).symm
    · right
      rw [h] at hchan
      exact (Option.some.injEq _ _ ▸ hchan).symm

/-- Witness for C8 on a concrete interleave of channels 0 and 2: a pending
wide-value MSB and a Parameter-Number number half on channel 0, a completing
pair on channel 2. -/
theorem c8_witness :
    ((0 : Nat) ≠ 2)
    ∧ (∀ m ∈ ([ShortMessage.controlChange 0 2 8, ShortMessage.controlChange 2 99 3,
               ShortMessage.controlChange 0 34 33] : List ShortMessage),
        m.channel? = some 0 ∨ m.channel? = some 2)
    ∧ (pnCompleted ParameterNumberMessageScanner.new
        (msgsOn 0 [ShortMessage.controlChange 0 2 8, ShortMessage.controlChange 2 99 3,
                   ShortMessage.controlChange 0 34 33])
      = (pnCompleted ParameterNumberMessageScanner.new
          [ShortMessage.controlChange 0 2 8, ShortMessage.controlChange 2 99 3,
           ShortMessage.controlChange 0 34 33]).filter (fun o => decide (o.channel = 0))
    ∧ pnCompleted ParameterNumberMessageScanner.new
        (msgsOn 2 [ShortMessage.controlChange 0 2 8, ShortMessage.controlChange 2 99 3,
                   ShortMessage.controlChange 0 34 33])
      = (pnCompleted ParameterNumberMessageScanner.new
          [ShortMessage.controlChange 0 2 8, ShortMessage.controlChange 2 99 3,
           ShortMessage.controlChange 0 34 33]).filter (fun o => decide (o.channel = 2))
    ∧ wideCompleted Midi14BitControlChangeMessageParser.new
        (msgsOn 0 [ShortMessage.controlChange 0 2 8, ShortMessage.controlChange 2 99 3,
                   ShortMessage.controlChange 0 34 33])
      = (wideCompleted Midi14BitControlChangeMessageParser.new
          [ShortMessage.controlChange 0 2 8, ShortMessage.controlChange 2 99 3,
           ShortMessage.controlChange 0 34 33]).filter (fun o => decide (o.channel = 0))
    ∧ wideCompleted Midi14BitControlChangeMessageParser.new
        (msgsOn 2 [ShortMessage.controlChange 0 2 8, ShortMessage.controlChange 2 99 3,
                   ShortMessage.controlChange 0 34 33])
      = (wideCompleted Midi14BitControlChangeMessageParser.new
          [ShortMessage.controlChange 0 2 8, ShortMessage.controlChange 2 99 3,
           ShortMessage.controlChange 0 34 33]).filter (fun o => decide (o.channel = 2))
    ∧ (∀ o ∈ pnCompleted ParameterNumberMessageScanner.new
          [ShortMessage.controlChange 0 2 8, ShortMessage.controlChange 2 99 3,
           ShortMessage.controlChange 0 34 33],
        o.channel = 0 ∨ o.channel = 2)
    ∧ (∀ o ∈ wideCompleted Midi14BitControlChangeMessageParser.new
          [ShortMessage.controlChange 0 2 8, ShortMessage.controlChange 2 99 3,
           ShortMessage.controlChange 0 34 33],
        o.channel = 0 ∨ o.channel = 2)) :=
  ⟨by decide, by decide,
   c8_channel_isolation 0 2
     [ShortMessage.controlChange 0 2 8, ShortMessage.controlChange 2 99 3,
      ShortMessage.controlChange 0 34 33] (by decide) (by decide)⟩

/-- Witness for the amended C3 at the source's test values (number halves 3
and 37, value 126, channel 2). -/
theorem c3_amended_witness :
    (pnRun ParameterNumberMessageScanner.new
      [.controlChange 2 99 3, .controlChange 2 98 37, .controlChange 2 6 126]).2
    = [none, none,
       some { channel := 2, number := build_14_bit_value_from_two_7_bit_values 3 37,
              value := 126, is_registered := false, is_14_bit := false }]
    ∧ (pnRun ParameterNumberMessageScanner.new
      [.controlChange 2 101 3, .controlChange 2 100 37, .controlChange 2 6 126]).2
    = [none, none,
       some { channel := 2, number := build_14_bit_value_from_two_7_bit_values 3 37,
              value := 126, is_registered := true, is_14_bit := false }] :=
  c3_amended 2 3 37 126

/-- Witness for C9 at a state reached by storing MSB controller 2 and then
feeding an arbitrary LSB-half message. -/
theorem c9_witness :
    (ParserForOneChannel.feed
      ((wideRun Midi14BitControlChangeMessageParser.new
        [.controlChange 5 2 8]).1.parser_by_channel 5)
      (.controlChange 5 34 33)).isSome = true :=
  c9_feed_never_panics [.controlChange 5 2 8] 5 (.controlChange 5 34 33)
